import Mathlib

/-!
Verification of a browser-extension challenge-bypass system ("dodo").

The development shallowly embeds the four JavaScript source files:

* `turnstilePatch/script.js` — the service-worker / background half (the
  "Network Interception Gate"): a `chrome.webRequest.onBeforeRequest`
  listener that allows Turnstile asset URLs through (returning
  `{cancel:false}`) and appends an `X-Patched` header otherwise, a second
  `onBeforeRequest` listener that redirects challenge-endpoint URLs to a
  forged `data:` URL, and an `onBeforeSendHeaders` listener that appends
  five navigation-context headers to every request.
* `turnstilePatch/content.js` — the page-injected half (the "Environment
  Spoofing Injector"): `navigator` property overrides, a canvas
  `toDataURL` perturbation, and a mousemove velocity damper.
* two further page scripts — a Turnstile widget shim (`render`, `reset`,
  `getResponse`), a `window.fetch` override, and a second injector variant
  using `delete navigator.webdriver` and a fixed-token `render`.

JavaScript strings are Lean `String`s, `String.prototype.includes` is the
executable `jsIncludes`, JS numbers arising in the embedded code are `ℚ`
(all the embedded arithmetic is exact at these values), `Date.now()` is a
`ℕ` millisecond-timestamp parameter, and `Math.random()` results are
explicit `ℚ` stream parameters constrained to `[0, 1)`.
-/

/-- `hasInfix s pat = true` iff `pat` occurs contiguously in `s`;
executable model of JavaScript `String.prototype.includes`. -/
def hasInfix : List Char → List Char → Bool
  | [], pat => pat.isEmpty
  | s@(_ :: t), pat => pat.isPrefixOf s || hasInfix t pat

/-- JavaScript `url.includes(pat)`. -/
def jsIncludes (s pat : String) : Bool := hasInfix s.data pat.data

/-- One HTTP request header, a `{name, value}` object of the
`chrome.webRequest` API. -/
structure Header where
  name : String
  value : String
deriving DecidableEq

/-- script.js lines 10: the URL test of the allow branch of the first
`onBeforeRequest` listener — the challenge-asset pattern (the widget's
loader/runtime script). -/
def assetPattern (url : String) : Bool :=
  jsIncludes url "challenges.cloudflare.com" || jsIncludes url "turnstile"

/-- script.js line 69: the URL test of the redirecting `onBeforeRequest`
listener — the challenge-endpoint pattern (challenge-platform path prefix
or versioned verification path segment). -/
def endpointPattern (url : String) : Bool :=
  jsIncludes url "/cdn-cgi/challenge-platform/" || jsIncludes url "turnstile/v2/"

/-- Return value of the first `onBeforeRequest` listener (script.js
lines 2-26): either `{cancel: false}` (the allow branch) or
`{requestHeaders: ...}` (after pushing `X-Patched`). -/
inductive BlockingResponseA where
  | allow
  | withHeaders (hs : List Header)
deriving DecidableEq

/-- script.js lines 2-26: the first `onBeforeRequest` listener. Asset URLs
are allowed through; otherwise `X-Patched: true` is pushed onto the
request's header array. -/
def onBeforeRequestA (url : String) (requestHeaders : List Header) : BlockingResponseA :=
  if assetPattern url then BlockingResponseA.allow
  else BlockingResponseA.withHeaders (requestHeaders ++ [⟨"X-Patched", "true"⟩])

/-- script.js lines 67-77: the redirecting `onBeforeRequest` listener.
`some u` means the request is replaced by a redirect to `u` (a forged
response substituted for the real one); `none` means the listener returns
`undefined` and the request proceeds. -/
def onBeforeRequestRedirect (url : String) : Option String :=
  if endpointPattern url then
    some "data:text/plain;charset=utf-8,fake-valid-response"
  else none

/-- Whether the Gate substitutes a forged response for a request to `url`:
in the `chrome.webRequest` model any blocking listener returning a
`redirectUrl` causes the substitution (a `{cancel:false}` return from the
other listener does not override it). -/
def gateSubstitutesForged (url : String) : Bool :=
  (onBeforeRequestRedirect url).isSome

/-- script.js lines 53-58: the five navigation-context headers pushed by
the `onBeforeSendHeaders` listener. -/
def navigationContextHeaders : List Header :=
  [⟨"Sec-Fetch-Dest", "document"⟩,
   ⟨"Sec-Fetch-Mode", "navigate"⟩,
   ⟨"Sec-Fetch-Site", "same-origin"⟩,
   ⟨"Sec-Fetch-User", "?1"⟩,
   ⟨"Upgrade-Insecure-Requests", "1"⟩]

/-- script.js lines 49-64: the `onBeforeSendHeaders` listener. It takes
`details.requestHeaders || []` and pushes the five fixed headers; the URL
is never inspected (it registers for `<all_urls>`). -/
def onBeforeSendHeaders (url : String) (requestHeaders : Option (List Header)) : List Header :=
  requestHeaders.getD [] ++ navigationContextHeaders

/-- Decimal digits of `n`, least-significant first, computed with `n` as
structural fuel (`n` iterations always suffice since `n / 10 < n`). -/
def toDigitsRev (fuel n : ℕ) : List ℕ :=
  match fuel with
  | 0 => []
  | f + 1 => if n = 0 then [] else n % 10 :: toDigitsRev f (n / 10)

/-- Decimal character rendering of a natural number, modelling JavaScript
`ToString` applied to a (whole, non-negative) number such as `Date.now()`. -/
def jsDigits (n : ℕ) : List Char :=
  if n = 0 then ['0'] else ((toDigitsRev n n).map Nat.digitChar).reverse

/-- JavaScript number-to-string coercion for naturals (as in
`'prefix' + Date.now()`). -/
def jsNumToString (n : ℕ) : String := String.mk (jsDigits n)

/-- The fake token expression `'fake_turnstile_token_' + Date.now()`
(widget shim, lines 15 and 27), as a function of the current
millisecond clock. -/
def fakeToken (now : ℕ) : String := "fake_turnstile_token_" ++ jsNumToString now

/-- Widget shim line 26-28: `window.turnstile.getResponse = function(widgetId)
{ return 'fake_turnstile_token_' + Date.now(); }`. The widget identifier is
ignored; the result depends only on the clock (nothing is cached). -/
def getResponse (widgetId : String) (now : ℕ) : String := fakeToken now

/-- A callback scheduled through `setTimeout`: its delay in milliseconds
and the token it passes, as a function of the `Date.now()` value at the
moment the timer fires (the token expression is evaluated inside the
timer callback). -/
structure ScheduledCallback where
  delayMs : ℕ
  token : ℕ → String

/-- Result of one call to a widget shim's `render`: the value returned
synchronously (`none` = `undefined`) and the timer the call scheduled,
if any. -/
structure RenderOutcome where
  ret : Option String
  scheduled : Option ScheduledCallback

/-- Widget shim lines 10-19 (`part_000`): `render(element, options)`
returns `'fake_widget_id'` and, when `options.callback` is a function,
schedules `options.callback('fake_turnstile_token_' + Date.now())` after
1000 ms. -/
def renderA (callbackPresent : Bool) : RenderOutcome :=
  ⟨some "fake_widget_id",
   if callbackPresent then some ⟨1000, fakeToken⟩ else none⟩

/-- Second shim, `part_001` lines 14-20: `render: (el, config) => {
setTimeout(() => { config.callback('fake-valid-token'); }, 1000); }` —
no return statement (so `undefined`), and the token is the fixed string
`'fake-valid-token'`. -/
def renderB : RenderOutcome :=
  ⟨none, some ⟨1000, fun _ => "fake-valid-token"⟩⟩

/-- First argument of a call to the overridden `window.fetch`: either a
string URL or a non-string object (e.g. a `Request`) whose underlying URL
is recorded for the statement of C9. -/
inductive FetchArg where
  | str (url : String)
  | obj (url : String)
deriving DecidableEq

/-- The synthetic response object the fetch override resolves with:
`{ok: true, status: 200, json: () => ({success: true}),
text: () => '{"success": true}'}`. `jsonSuccess` is the `success` field of
the object the `json()` promise resolves with. -/
structure FetchResponse where
  ok : Bool
  status : ℕ
  jsonSuccess : Bool
  text : String
deriving DecidableEq

/-- Result of a call to the overridden `window.fetch`: a synthetic
response resolved without any network activity, or delegation of the
(unchanged) arguments to the saved original fetch. -/
inductive FetchResult where
  | synthetic (r : FetchResponse)
  | delegated (arg : FetchArg)
deriving DecidableEq

/-- The synthetic success response of the fetch override
(`part_000` lines 37-42). -/
def syntheticChallengeResponse : FetchResponse :=
  ⟨true, 200, true, "\x7b\"success\": true\x7d"⟩

/-- `part_000` lines 33-45: the `window.fetch` override. Only a string
first argument is inspected (`typeof url === 'string' &&
url.includes('challenges')`); everything else goes to the original fetch
unchanged. -/
def fetchPatched : FetchArg → FetchResult
  | FetchArg.str url =>
      if jsIncludes url "challenges" then FetchResult.synthetic syntheticChallengeResponse
      else FetchResult.delegated (FetchArg.str url)
  | FetchArg.obj url => FetchResult.delegated (FetchArg.obj url)

/-- The spoofable `navigator` surface touched by the two injector
variants, with prototype dispatch for the automation flag made explicit:
per the WebDriver standard `webdriver` is an accessor on
`Navigator.prototype`, so a read of `navigator.webdriver` uses the
instance's own property when one exists (`webdriverOwn = some v`, reads
yielding `v`, with inner `none` meaning `undefined`) and otherwise falls
back to the prototype getter, which reports the browser's true
automation flag `webdriverProto`. -/
structure Navigator where
  webdriverOwn : Option (Option Bool)
  webdriverProto : Option Bool
  plugins : List ℕ
  languages : List String
  mimeTypes : List ℕ
  connectionPresent : Bool
  platform : String
  hardwareConcurrency : ℕ

/-- content.js lines 6-34: `Object.defineProperty(navigator, 'webdriver',
...)` with a getter returning `undefined`, the plugin/language/mimeType
overrides, and `delete navigator.connection`. Defining the property on
the `navigator` *instance* installs an own accessor that shadows the
`Navigator.prototype` getter, so subsequent reads yield `undefined`
whatever the browser's true flag was. -/
def contentInject (nav : Navigator) : Navigator :=
  { nav with
    webdriverOwn := some none
    plugins := [1, 2, 3, 4, 5]
    languages := ["zh-CN", "zh", "en"]
    mimeTypes := [1, 2]
    connectionPresent := false }

/-- `part_001` lines 2-5: `delete navigator.webdriver` plus the language,
platform and hardwareConcurrency overrides. `delete` can only remove an
*own* property of the `navigator` instance; it cannot touch the
`Navigator.prototype` accessor, so after it runs (with or without a
pre-existing own property) reads fall back to the prototype getter and
report the browser's true automation flag. -/
def part001Inject (nav : Navigator) : Navigator :=
  { nav with
    webdriverOwn := none
    languages := ["zh-CN", "zh", "en"]
    platform := "Linux x86_64"
    hardwareConcurrency := 8 }

/-- A pre-injection navigator of an automated browser: no own
`webdriver` property, and the `Navigator.prototype` accessor reporting
`true`. -/
def automatedNavigator : Navigator :=
  ⟨none, some true, [], ["en-US"], [], true, "Linux x86_64", 4⟩

/-- Reading `navigator.webdriver` is effect-free: it yields the value of
the own property when one exists, falling back to the prototype
accessor, and leaves the navigator unchanged. -/
def readWebdriver (nav : Navigator) : Option Bool × Navigator :=
  (nav.webdriverOwn.getD nav.webdriverProto, nav)

/-- The values observed by `n` successive reads of `navigator.webdriver`
within one page lifetime, each read starting from the state the previous
read left behind. -/
def readsWebdriver : Navigator → ℕ → List (Option Bool)
  | _, 0 => []
  | nav, n + 1 => (readWebdriver nav).1 :: readsWebdriver (readWebdriver nav).2 n

/-- `Uint8ClampedArray` element assignment for an integral value: clamp
into `[0, 255]`. -/
def clampByte (v : ℤ) : ℕ :=
  if v < 0 then 0 else if 255 < v then 255 else v.toNat

/-- content.js lines 65-67: the per-channel offset
`Math.floor(Math.random() * 2 - 1)`, as a function of the
`Math.random()` draw. -/
def jsDelta (r : ℚ) : ℤ := Int.floor (2 * r - 1)

/-- content.js lines 63-69: the perturbation loop over the RGBA pixel
array. `rng` is the `Math.random()` stream and `k` the position in it:
each pixel consumes one selection draw, and a selected pixel
(`Math.random() < 0.01`) consumes three further draws to offset its R, G
and B channels (alpha untouched). A trailing fragment shorter than one
pixel cannot occur for real `ImageData` and is left unchanged. -/
def perturbPixels (rng : ℕ → ℚ) : ℕ → List ℕ → List ℕ
  | k, r :: g :: b :: a :: rest =>
      if rng k < 1 / 100 then
        clampByte ((r : ℤ) + jsDelta (rng (k + 1))) ::
        clampByte ((g : ℤ) + jsDelta (rng (k + 2))) ::
        clampByte ((b : ℤ) + jsDelta (rng (k + 3))) ::
        a :: perturbPixels rng (k + 4) rest
      else
        r :: g :: b :: a :: perturbPixels rng (k + 1) rest
  | _, l => l

/-- The `Math.random()` stream of one concrete call: the selection draw
is `0` (the pixel is selected) and every channel draw is `1/2`. -/
def rngEx (k : ℕ) : ℚ := if k = 0 then 0 else 1 / 2

/-- content.js lines 51-74: the patched
`HTMLCanvasElement.prototype.toDataURL`. `encode` is the browser's
original encoder (a function of the pixel data and the format argument;
the quality argument is passed through unchanged and omitted here), and a
canvas is represented by its pixel data. For `'image/png'` the code
redraws onto a scratch canvas, perturbs its pixels, and then calls
`canvas.toDataURL(...)` on the scratch canvas — which resolves through
the *patched* prototype again, so the call recurses with freshly
perturbed pixels and never reaches a base case; `fuel` bounds the call
stack and `none` models the stack overflow. For any other format the
original result is returned. -/
def toDataURLPatched (encode : List ℕ → Option String → String) (rngs : ℕ → ℕ → ℚ) :
    ℕ → ℕ → List ℕ → Option String → Option String
  | 0, _, _, _ => none
  | fuel + 1, depth, pixels, fmt =>
      if fmt = some "image/png" then
        toDataURLPatched encode rngs fuel (depth + 1)
          (perturbPixels (rngs depth) 0 pixels) fmt
      else
        some (encode pixels fmt)

/-- State kept by the mousemove damper (content.js lines 77-79):
last seen coordinates and timestamp. -/
structure MouseState where
  x : ℚ
  y : ℚ
  t : ℚ

/-- A mousemove event: `clientX`, `clientY` and the `Date.now()` at which
the listener runs. -/
structure MouseEvent where
  clientX : ℚ
  clientY : ℚ
  now : ℚ

/-- content.js line 86: `Math.abs(e.clientX - mouseX) / deltaTime`. -/
def mousemoveVelX (s : MouseState) (e : MouseEvent) : ℚ :=
  |e.clientX - s.x| / (e.now - s.t)

/-- content.js line 87: `Math.abs(e.clientY - mouseY) / deltaTime`. -/
def mousemoveVelY (s : MouseState) (e : MouseEvent) : ℚ :=
  |e.clientY - s.y| / (e.now - s.t)

/-- The inter-event velocity: the larger of the two per-axis velocities
the listener computes (the listener reacts when either axis exceeds the
threshold, i.e. exactly when their maximum does). -/
def interEventVelocity (s : MouseState) (e : MouseEvent) : ℚ :=
  max (mousemoveVelX s e) (mousemoveVelY s e)

/-- content.js lines 90-92: the event's propagation is stopped iff
`velocityX > 0.5 || velocityY > 0.5`. -/
def mousemoveSuppresses (s : MouseState) (e : MouseEvent) : Bool :=
  decide (mousemoveVelX s e > 1 / 2) || decide (mousemoveVelY s e > 1 / 2)

/-- content.js lines 94-96: the state update performed on every event,
suppressed or not. -/
def mousemoveNextState (e : MouseEvent) : MouseState :=
  ⟨e.clientX, e.clientY, e.now⟩

/-! ### Helper lemmas -/

theorem toDigitsRev_ofDigits : ∀ fuel n : ℕ, n ≤ fuel → Nat.ofDigits 10 (toDigitsRev fuel n) = n := by
  intro fuel
  induction fuel with
  | zero =>
    intro n hn
    have : n = 0 := Nat.le_zero.mp hn
    subst this
    simp [toDigitsRev, Nat.ofDigits_nil]
  | succ f ih =>
    intro n hn
    by_cases h0 : n = 0
    · subst h0
      simp [toDigitsRev, Nat.ofDigits_nil]
    · have hdiv : n / 10 < n := Nat.div_lt_self (Nat.pos_of_ne_zero h0) (by norm_num)
      have hfuel : n / 10 ≤ f := by omega
      rw [toDigitsRev, if_neg h0, Nat.ofDigits_cons, ih (n / 10) hfuel]
      omega

theorem toDigitsRev_lt_ten : ∀ fuel n : ℕ, ∀ d ∈ toDigitsRev fuel n, d < 10 := by
  intro fuel
  induction fuel with
  | zero => simp [toDigitsRev]
  | succ f ih =>
    intro n d hd
    rw [toDigitsRev] at hd
    by_cases h0 : n = 0
    · simp [h0] at hd
    · rw [if_neg h0] at hd
      rcases List.mem_cons.mp hd with h | h
      · subst h
        exact Nat.mod_lt _ (by norm_num)
      · exact ih _ _ h

theorem digitChar_inj_lt : ∀ a < 10, ∀ b < 10, Nat.digitChar a = Nat.digitChar b → a = b := by
  decide

theorem map_digitChar_inj : ∀ l₁ l₂ : List ℕ, (∀ d ∈ l₁, d < 10) → (∀ d ∈ l₂, d < 10) →
    l₁.map Nat.digitChar = l₂.map Nat.digitChar → l₁ = l₂ := by
  intro l₁
  induction l₁ with
  | nil =>
    intro l₂ _ _ h
    cases l₂ with
    | nil => rfl
    | cons b t₂ => simp at h
  | cons a t ih =>
    intro l₂ h₁ h₂ h
    cases l₂ with
    | nil => simp at h
    | cons b t₂ =>
      simp only [List.map_cons, List.cons.injEq] at h
      have hab := digitChar_inj_lt a (h₁ a (by simp)) b (h₂ b (by simp)) h.1
      have ht := ih t₂ (fun d hd => h₁ d (by simp [hd])) (fun d hd => h₂ d (by simp [hd])) h.2
      simp [hab, ht]

theorem jsDigits_inj : ∀ {m n : ℕ}, jsDigits m = jsDigits n → m = n := by
  have key : ∀ n : ℕ, n ≠ 0 → jsDigits n ≠ ['0'] := by
    intro n hn hcontra
    rw [jsDigits, if_neg hn] at hcontra
    have hmap : (toDigitsRev n n).map Nat.digitChar = ['0'] := by
      have := congrArg List.reverse hcontra
      simpa using this
    have hlen : (toDigitsRev n n).length = 1 := by
      have := congrArg List.length hmap
      simpa using this
    obtain ⟨d, hd⟩ : ∃ d, toDigitsRev n n = [d] := by
      cases hD : toDigitsRev n n with
      | nil => rw [hD] at hlen; simp at hlen
      | cons d t =>
        cases t with
        | nil => exact ⟨d, rfl⟩
        | cons e t₂ => rw [hD] at hlen; simp at hlen
    have hchar : Nat.digitChar d = '0' := by
      rw [hd] at hmap
      simpa using hmap
    have hd10 : d < 10 := toDigitsRev_lt_ten n n d (by rw [hd]; simp)
    have hd0 : d = 0 := digitChar_inj_lt d hd10 0 (by norm_num) hchar
    have := toDigitsRev_ofDigits n n le_rfl
    rw [hd, hd0] at this
    simp [Nat.ofDigits_cons, Nat.ofDigits_nil] at this
    exact hn this.symm
  intro m n h
  by_cases hm : m = 0 <;> by_cases hn : n = 0
  · omega
  · exfalso
    apply key n hn
    rw [← h, jsDigits, if_pos hm]
  · exfalso
    apply key m hm
    rw [h, jsDigits, if_pos hn]
  · rw [jsDigits, if_neg hm, jsDigits, if_neg hn] at h
    have hmap := List.reverse_injective h
    have hDig := map_digitChar_inj _ _ (toDigitsRev_lt_ten m m) (toDigitsRev_lt_ten n n) hmap
    calc m = Nat.ofDigits 10 (toDigitsRev m m) := (toDigitsRev_ofDigits m m le_rfl).symm
      _ = Nat.ofDigits 10 (toDigitsRev n n) := by rw [hDig]
      _ = n := toDigitsRev_ofDigits n n le_rfl

theorem fakeToken_inj {t₁ t₂ : ℕ} (h : fakeToken t₁ = fakeToken t₂) : t₁ = t₂ := by
  have hd : "fake_turnstile_token_".data ++ jsDigits t₁
      = "fake_turnstile_token_".data ++ jsDigits t₂ := by
    have := congrArg String.data h
    simpa [fakeToken, jsNumToString, String.data_append] using this
  exact jsDigits_inj (List.append_cancel_left hd)

theorem jsDelta_mem (r : ℚ) (h0 : 0 ≤ r) (h1 : r < 1) : jsDelta r = -1 ∨ jsDelta r = 0 := by
  have hlow : (-1 : ℤ) ≤ jsDelta r := by
    apply Int.le_floor.mpr
    push_cast
    linarith
  have hhigh : jsDelta r < 1 := by
    apply Int.floor_lt.mpr
    push_cast
    linarith
  omega

theorem clampByte_dec (d : ℕ) (hd : d ≤ 255) (r : ℚ) (h0 : 0 ≤ r) (h1 : r < 1) :
    clampByte ((d : ℤ) + jsDelta r) = d ∨ clampByte ((d : ℤ) + jsDelta r) + 1 = d := by
  rcases jsDelta_mem r h0 h1 with h | h <;> rw [h] <;> rw [clampByte] <;> split_ifs <;> omega

theorem perturbPixels_rel (rng : ℕ → ℚ) (hr : ∀ n, 0 ≤ rng n ∧ rng n < 1) :
    ∀ (m k : ℕ) (data : List ℕ), data.length ≤ m → (∀ d ∈ data, d ≤ 255) →
      List.Forall₂ (fun d o => o = d ∨ o + 1 = d) data (perturbPixels rng k data) := by
  intro m
  induction m with
  | zero =>
    intro k data hlen _
    have : data = [] := List.eq_nil_of_length_eq_zero (Nat.le_zero.mp hlen)
    subst this
    exact List.Forall₂.nil
  | succ m ih =>
    intro k data hlen hb
    rcases data with _ | ⟨r, _ | ⟨g, _ | ⟨b, _ | ⟨a, rest⟩⟩⟩⟩
    · exact List.Forall₂.nil
    · exact List.forall₂_same.mpr fun x _ => Or.inl rfl
    · exact List.forall₂_same.mpr fun x _ => Or.inl rfl
    · exact List.forall₂_same.mpr fun x _ => Or.inl rfl
    · have hrest : rest.length ≤ m := by
        simp only [List.length_cons] at hlen
        omega
      by_cases hsel : rng k < 1 / 100
      · rw [perturbPixels, if_pos hsel]
        refine List.Forall₂.cons ?_ (List.Forall₂.cons ?_ (List.Forall₂.cons ?_
          (List.Forall₂.cons (Or.inl rfl) ?_)))
        · exact clampByte_dec r (hb r (by simp)) (rng (k + 1)) (hr (k + 1)).1 (hr (k + 1)).2
        · exact clampByte_dec g (hb g (by simp)) (rng (k + 2)) (hr (k + 2)).1 (hr (k + 2)).2
        · exact clampByte_dec b (hb b (by simp)) (rng (k + 3)) (hr (k + 3)).1 (hr (k + 3)).2
        · exact ih (k + 4) rest hrest fun d hd => hb d (by simp [hd])
      · rw [perturbPixels, if_neg hsel]
        refine List.Forall₂.cons (Or.inl rfl) (List.Forall₂.cons (Or.inl rfl)
          (List.Forall₂.cons (Or.inl rfl) (List.Forall₂.cons (Or.inl rfl) ?_)))
        exact ih (k + 1) rest hrest fun d hd => hb d (by simp [hd])

theorem readsWebdriver_const (nav : Navigator) :
    ∀ n : ℕ, readsWebdriver nav n
      = List.replicate n (nav.webdriverOwn.getD nav.webdriverProto) := by
  intro n
  induction n with
  | zero => rfl
  | succ m ih => simp [readsWebdriver, readWebdriver, List.replicate, ih]

theorem toDataURL_png_never_returns (encode : List ℕ → Option String → String)
    (rngs : ℕ → ℕ → ℚ) :
    ∀ (fuel depth : ℕ) (pixels : List ℕ),
      toDataURLPatched encode rngs fuel depth pixels (some "image/png") = none := by
  intro fuel
  induction fuel with
  | zero => intro depth pixels; rfl
  | succ f ih =>
    intro depth pixels
    rw [toDataURLPatched, if_pos rfl]
    exact ih _ _

/-! ### Claim theorems -/

/-- C1, counterexample: the URL
`https://challenges.cloudflare.com/turnstile/v2/api.js` matches the
challenge-asset pattern, yet the Gate substitutes a forged response for
it — the redirecting listener matches `turnstile/v2/` unconditionally, so
asset pass-through does not take priority over endpoint short-circuit. -/
theorem C1_asset_priority_counterexample :
    assetPattern "https://challenges.cloudflare.com/turnstile/v2/api.js" = true
    ∧ gateSubstitutesForged "https://challenges.cloudflare.com/turnstile/v2/api.js" = true := by
  constructor <;> decide

/-- C1, amended: for every URL that matches the challenge-asset pattern
and does not match the challenge-endpoint pattern, the Gate's first
listener explicitly allows the request and the Gate never substitutes a
forged response; when a URL matches both patterns the endpoint
short-circuit wins. -/
theorem C1_asset_passthrough (url : String) (hs : List Header)
    (ha : assetPattern url = true) (he : endpointPattern url = false) :
    onBeforeRequestA url hs = BlockingResponseA.allow
    ∧ gateSubstitutesForged url = false := by
  constructor
  · rw [onBeforeRequestA, if_pos ha]
  · rw [gateSubstitutesForged, onBeforeRequestRedirect, if_neg (by simp [he])]
    rfl

/-- C1, witness: the real widget loader URL matches the asset pattern,
fails the endpoint pattern, and passes through unforged. -/
theorem C1_asset_passthrough_witness :
    onBeforeRequestA "https://challenges.cloudflare.com/turnstile/v0/api.js" []
      = BlockingResponseA.allow
    ∧ gateSubstitutesForged "https://challenges.cloudflare.com/turnstile/v0/api.js" = false :=
  C1_asset_passthrough _ [] (by decide) (by decide)

/-- C2, counterexample: two consecutive calls to `getResponse` that land
in the same millisecond (the same `Date.now()` value) return the very
same token string, so "any two consecutive calls return different token
strings" fails. -/
theorem C2_same_millisecond_counterexample :
    (1700000000000 : ℕ) ≤ 1700000000000
    ∧ getResponse "widget-0" 1700000000000 = getResponse "widget-0" 1700000000000 :=
  ⟨le_rfl, rfl⟩

/-- C2, amended: for every widget identifier, `getResponse` returns the
fixed prefix `fake_turnstile_token_` followed by the decimal millisecond
clock, nothing is cached, and two calls return different tokens exactly
when their `Date.now()` values differ (calls within the same millisecond
repeat the token). -/
theorem C2_token_freshness :
    (∀ (widgetId : String) (t₁ t₂ : ℕ), t₁ ≠ t₂ →
      getResponse widgetId t₁ ≠ getResponse widgetId t₂)
    ∧ (∀ (widgetId : String) (t : ℕ),
      getResponse widgetId t = "fake_turnstile_token_" ++ jsNumToString t) :=
  ⟨fun _ _ _ hne hcontra => hne (fakeToken_inj hcontra), fun _ _ => rfl⟩

/-- C2, witness: tokens of two adjacent milliseconds differ. -/
theorem C2_token_freshness_witness :
    getResponse "widget-0" 1000 ≠ getResponse "widget-0" 1001 :=
  C2_token_freshness.1 "widget-0" 1000 1001 (by decide)

/-- C3, counterexample: the URL
`https://example.com/cdn-cgi/challenge-platform/h/b/orchestrate` matches
the Gate's challenge-endpoint pattern, but the page-realm fetch override
delegates it to the real network — its guard is
`url.includes('challenges')` and `challenge-platform` does not contain
the substring `challenges`. -/
theorem C3_fetch_override_gap_counterexample :
    endpointPattern "https://example.com/cdn-cgi/challenge-platform/h/b/orchestrate" = true
    ∧ fetchPatched (FetchArg.str "https://example.com/cdn-cgi/challenge-platform/h/b/orchestrate")
      = FetchResult.delegated
          (FetchArg.str "https://example.com/cdn-cgi/challenge-platform/h/b/orchestrate") := by
  constructor <;> decide

/-- C3, amended: every URL matching a Gate challenge-endpoint marker is
short-circuited by the Gate to a redirect onto the local
`data:text/plain;charset=utf-8,fake-valid-response` URL (no real network
call); the page-realm fetch override additionally resolves such a fetch
with the synthetic success response (`ok`, status 200, success-flagged
JSON body) exactly when the URL also contains the substring `challenges`,
and otherwise delegates it to the real fetch. -/
theorem C3_endpoint_short_circuit (url : String) (he : endpointPattern url = true) :
    onBeforeRequestRedirect url = some "data:text/plain;charset=utf-8,fake-valid-response"
    ∧ (jsIncludes url "challenges" = true →
        fetchPatched (FetchArg.str url) = FetchResult.synthetic syntheticChallengeResponse
        ∧ syntheticChallengeResponse.status = 200
        ∧ syntheticChallengeResponse.jsonSuccess = true)
    ∧ (jsIncludes url "challenges" = false →
        fetchPatched (FetchArg.str url) = FetchResult.delegated (FetchArg.str url)) := by
  refine ⟨?_, fun hc => ⟨?_, rfl, rfl⟩, fun hc => ?_⟩
  · rw [onBeforeRequestRedirect, if_pos (by simp [he])]
  · rw [fetchPatched, if_pos (by simp [hc])]
  · rw [fetchPatched, if_neg (by simp [hc])]

/-- C3, witness: a challenge-platform URL on the widget host is forged by
the Gate and also short-circuited by the fetch override. -/
theorem C3_endpoint_short_circuit_witness :
    onBeforeRequestRedirect "https://challenges.cloudflare.com/cdn-cgi/challenge-platform/x"
      = some "data:text/plain;charset=utf-8,fake-valid-response"
    ∧ fetchPatched (FetchArg.str "https://challenges.cloudflare.com/cdn-cgi/challenge-platform/x")
      = FetchResult.synthetic syntheticChallengeResponse :=
  ⟨(C3_endpoint_short_circuit _ (by decide)).1,
   ((C3_endpoint_short_circuit _ (by decide)).2.1 (by decide)).1⟩

/-- C4, counterexample: the second widget shim's `render` returns no
widget identifier at all (`undefined`), and the token it schedules is the
fixed string `fake-valid-token` whatever the clock reads when the timer
fires — not a freshly generated token. -/
theorem C4_fixed_token_counterexample :
    renderB.ret = none
    ∧ (renderB.scheduled.map fun s => s.token 0) = some "fake-valid-token"
    ∧ (renderB.scheduled.map fun s => s.token 999999999) = some "fake-valid-token" :=
  ⟨rfl, rfl, rfl⟩

/-- C4, amended: the first widget shim's `render` synchronously returns
the fake widget identifier `fake_widget_id` for every call; when a
success callback is supplied, the scheduled invocation fires after a
delay inside the 0.5-1.5 s range and passes a fresh token (different
whenever the firing clock differs); without a callback nothing is
scheduled. The second shim's `render` instead returns `undefined` and
always passes the fixed token. -/
theorem C4_render_behavior :
    (∀ cb : Bool, (renderA cb).ret = some "fake_widget_id")
    ∧ (∀ s : ScheduledCallback, (renderA true).scheduled = some s →
        500 ≤ s.delayMs ∧ s.delayMs ≤ 1500
        ∧ ∀ t₁ t₂ : ℕ, t₁ ≠ t₂ → s.token t₁ ≠ s.token t₂)
    ∧ (renderA false).scheduled = none := by
  refine ⟨fun cb => rfl, fun s hs => ?_, rfl⟩
  have hs' : s = ⟨1000, fakeToken⟩ := by
    simpa [renderA] using hs.symm
  subst hs'
  exact ⟨by norm_num, by norm_num, fun t₁ t₂ hne hcontra => hne (fakeToken_inj hcontra)⟩

/-- C4, witness: the scheduled callback of a `render` call with a
callback has delay 1000 ms and distinct tokens at distinct fire times. -/
theorem C4_render_behavior_witness :
    (renderA true).ret = some "fake_widget_id"
    ∧ 500 ≤ (1000 : ℕ) ∧ (1000 : ℕ) ≤ 1500
    ∧ fakeToken 2000 ≠ fakeToken 3000 :=
  ⟨C4_render_behavior.1 true,
   (C4_render_behavior.2.1 ⟨1000, fakeToken⟩ rfl).1,
   (C4_render_behavior.2.1 ⟨1000, fakeToken⟩ rfl).2.1,
   (C4_render_behavior.2.1 ⟨1000, fakeToken⟩ rfl).2.2 2000 3000 (by decide)⟩

/-- C5, counterexample: a pixel whose selection draw is `0` (selected,
since `0 < 0.01`) and whose three channel draws are all `1/2` is left
completely unchanged: `Math.floor(Math.random() * 2 - 1)` is `0` for any
draw in `[1/2, 1)`, so a perturbed channel need not differ by exactly 1. -/
theorem C5_unchanged_channel_counterexample :
    rngEx 0 < 1 / 100
    ∧ perturbPixels rngEx 0 [100, 100, 100, 255] = [100, 100, 100, 255] := by
  have h0 : rngEx 0 < 1 / 100 := by norm_num [rngEx]
  have hδ : jsDelta (1 / 2) = 0 := by
    rw [jsDelta]
    norm_num
  refine ⟨h0, ?_⟩
  rw [perturbPixels, if_pos h0]
  simp only [rngEx]
  norm_num [hδ, clampByte, perturbPixels]
  decide

/-- C5, amended: in one pass of the perturbation loop, over any
`Math.random()` stream (values in `[0,1)`) and any byte-valued pixel
array, every output channel equals the corresponding input channel or is
exactly one intensity level below it — a selected channel is decremented
by 1 or left unchanged (each with probability 1/2) and never
incremented, the clamp keeping zero-valued channels at 0. -/
theorem C5_perturbation_bounds (rng : ℕ → ℚ) (hr : ∀ n, 0 ≤ rng n ∧ rng n < 1)
    (k : ℕ) (data : List ℕ) (hb : ∀ d ∈ data, d ≤ 255) :
    List.Forall₂ (fun d o => o = d ∨ o + 1 = d) data (perturbPixels rng k data) :=
  perturbPixels_rel rng hr data.length k data le_rfl hb

/-- C5, witness: the bound instantiated on a concrete pixel array and the
all-zero draw stream. -/
theorem C5_perturbation_bounds_witness :
    List.Forall₂ (fun d o => o = d ∨ o + 1 = d) [7, 0, 255, 9]
      (perturbPixels (fun _ => 0) 0 [7, 0, 255, 9]) :=
  C5_perturbation_bounds (fun _ => 0) (fun _ => ⟨le_refl 0, zero_lt_one⟩) 0
    [7, 0, 255, 9] (by decide)

/-- C6: for consecutive pointer events (positive inter-event time), the
mousemove listener stops the second event's propagation exactly when the
inter-event velocity (the larger per-axis speed, in px/ms) exceeds the
fixed threshold 0.5; in particular 200 px in 5 ms (40 px/ms) is
suppressed and 5 px in 200 ms (0.025 px/ms) propagates. -/
theorem C6_velocity_damper :
    (∀ (s : MouseState) (e : MouseEvent), 0 < e.now - s.t →
      (mousemoveSuppresses s e = true ↔ 1 / 2 < interEventVelocity s e))
    ∧ mousemoveSuppresses ⟨0, 0, 0⟩ ⟨200, 0, 5⟩ = true
    ∧ mousemoveSuppresses ⟨0, 0, 0⟩ ⟨5, 0, 200⟩ = false := by
  refine ⟨fun s e _h => ?_, ?_, ?_⟩
  · simp [mousemoveSuppresses, interEventVelocity, lt_max_iff]
  · norm_num [mousemoveSuppresses, mousemoveVelX, mousemoveVelY]
  · norm_num [mousemoveSuppresses, mousemoveVelX, mousemoveVelY]

/-- C6, witness: the threshold comparison for the fast example follows
from the suppression verdict through the equivalence, and the slow
example propagates. -/
theorem C6_velocity_damper_witness :
    1 / 2 < interEventVelocity ⟨0, 0, 0⟩ ⟨200, 0, 5⟩
    ∧ mousemoveSuppresses ⟨0, 0, 0⟩ ⟨5, 0, 200⟩ = false :=
  ⟨(C6_velocity_damper.1 ⟨0, 0, 0⟩ ⟨200, 0, 5⟩ (by simp)).mp C6_velocity_damper.2.1,
   C6_velocity_damper.2.2⟩

/-- C7: the before-send header augmentation appends the five fixed
navigation-context headers to every request's header list, leaves every
pre-existing header in place with name, value and relative order
unchanged (the original list is literally the prefix of the result), and
treats every URL identically. -/
theorem C7_header_augmentation (url₁ url₂ : String) (requestHeaders : Option (List Header)) :
    onBeforeSendHeaders url₁ requestHeaders
      = requestHeaders.getD [] ++ navigationContextHeaders
    ∧ (onBeforeSendHeaders url₁ requestHeaders).take (requestHeaders.getD []).length
      = requestHeaders.getD []
    ∧ onBeforeSendHeaders url₁ requestHeaders = onBeforeSendHeaders url₂ requestHeaders :=
  ⟨rfl, List.take_left _ _, rfl⟩

/-- C8, counterexample: on an automated browser — the
`Navigator.prototype` accessor reporting `true`, no own property — the
`part_001` injector's `delete navigator.webdriver` is a no-op: there is
no own property to delete and the prototype accessor is out of `delete`'s
reach, so both of the next two reads of the automation flag still return
`true`, not the claimed `undefined`. -/
theorem C8_delete_noop_counterexample :
    readsWebdriver (part001Inject automatedNavigator) 2 = [some true, some true] := rfl

/-- C8, amended: after the content.js injector has run, every one of `n`
successive reads of `navigator.webdriver` within the page lifetime
yields `undefined` (`none`), stably, whatever the browser's true flag —
its `Object.defineProperty` installs an own instance getter that shadows
the prototype accessor and nothing ever reinstates the flag. The
`part_001` variant's instance-level `delete` leaves the prototype
accessor in place: every subsequent read still reports the browser's
true automation flag (equally stable, but not spoofed). -/
theorem C8_webdriver_override (nav : Navigator) (n : ℕ) :
    readsWebdriver (contentInject nav) n = List.replicate n none
    ∧ readsWebdriver (part001Inject nav) n = List.replicate n nav.webdriverProto :=
  ⟨readsWebdriver_const (contentInject nav) n, readsWebdriver_const (part001Inject nav) n⟩

/-- C9: a call to the overridden `window.fetch` whose first argument is
not a string — for any underlying URL, challenge endpoint or not — is
always delegated unchanged to the original fetch: the guard
`typeof url === 'string'` fails before the URL is ever inspected. -/
theorem C9_nonstring_delegation (url : String) :
    fetchPatched (FetchArg.obj url) = FetchResult.delegated (FetchArg.obj url) := rfl

/-- C10: the patched `toDataURL` perturbs only conversions whose first
argument is exactly `'image/png'`; for any other format argument
(including no argument, `none`) it returns the browser's original
encoder output for the canvas, byte for byte. -/
theorem C10_format_guard (encode : List ℕ → Option String → String) (rngs : ℕ → ℕ → ℚ)
    (fuel depth : ℕ) (pixels : List ℕ) (fmt : Option String)
    (h : fmt ≠ some "image/png") :
    toDataURLPatched encode rngs (fuel + 1) depth pixels fmt = some (encode pixels fmt) := by
  rw [toDataURLPatched, if_neg h]

/-- C10, witness: a `'image/jpeg'` conversion returns the true output. -/
theorem C10_format_guard_witness :
    toDataURLPatched (fun _ _ => "true-output") (fun _ _ => 0) 1 0 [] (some "image/jpeg")
      = some "true-output" :=
  C10_format_guard (fun _ _ => "true-output") (fun _ _ => 0) 0 0 [] (some "image/jpeg")
    (by decide)
